import Mathlib

/-!
Verification of the Pepper's-Cone warp-map engine.

The repository's warp logic (CircularConeImage.py, CircularConeLive.py,
CircularConeVideo.py, Interface/live_view.py, Interface/upload_view.py) is
shallowly embedded over the rationals.  Library collaborators (OpenCV resize
and color conversion kernels, numpy power, mediapipe segmentation) are taken
as explicit function parameters; the repository's own arithmetic — the warp
formulas, clipping, centering offsets, fixed-point decoding, control
clamping — is embedded faithfully from the source.  Transcendental inputs
(the value of pi, cos/sin of an angle, a pixel's polar radius and angle) are
passed as rational parameters constrained by the hypotheses the code
guarantees for them.
-/

namespace PeppersCone

/-- numpy's clip: `np.clip(v, lo, hi)` is `minimum(hi, maximum(lo, v))`. -/
def npClip (v lo hi : ℚ) : ℚ := min hi (max lo v)

/-- Python's `int()` applied to a real value: truncation toward zero. -/
def pyTrunc (q : ℚ) : ℤ := if 0 ≤ q then ⌊q⌋ else ⌈q⌉

/-- Python's `//` on integers: floor division. -/
def pyFloorDiv (a b : ℤ) : ℤ := Int.fdiv a b

/-- Per-pixel warp-map computation of CircularConeImage.py (lines 54-76):
for a destination pixel at polar coordinates `(radius, angle)` about the
canvas center, out-of-radius and out-of-span pixels get `(0, 0)`; in-domain
pixels get `(normAngle * (frameSize - 1), normRadius * (frameSize - 1))`
with no further clipping.  `piQ` stands for the constant `np.pi`. -/
def conePixelImage (frameSize maxRadius piQ radius angle : ℚ) : ℚ × ℚ :=
  if maxRadius < radius then (0, 0)
  else if -piQ / 2 ≤ angle ∧ angle ≤ piQ / 2 then
    ((angle + piQ / 2) / piQ * (frameSize - 1),
     (1 - radius / maxRadius) * (frameSize - 1))
  else (0, 0)

/-- Per-pixel warp-map computation of CircularConeLive.py (lines 25-50):
in-domain pixels get `int(normAngle * frameSize)` and
`int(normRadius * frameSize)`, each then clipped to `[0, frameSize - 1]`.
Pixels with `radius > maxRadius` are skipped (`continue`), leaving the
zero-initialized map entries, i.e. `(0, 0)`. -/
def conePixelLive (frameSize maxRadius piQ radius angle : ℚ) : ℚ × ℚ :=
  if maxRadius < radius then (0, 0)
  else if -piQ / 2 ≤ angle ∧ angle ≤ piQ / 2 then
    (npClip ((pyTrunc ((angle + piQ / 2) / piQ * frameSize) : ℤ) : ℚ) 0 (frameSize - 1),
     npClip ((pyTrunc ((1 - radius / maxRadius) * frameSize) : ℤ) : ℚ) 0 (frameSize - 1))
  else (0, 0)

/-- Per-pixel warp-map computation of `build_cone_maps` in
Interface/live_view.py (lines 37-65): in-domain pixels get
`int(np.clip(normAngle * frameSize, 0, frameSize - 1))` (clip first, then
truncate), likewise for the radius axis; out-of-radius pixels are skipped
(zero-initialized), out-of-span pixels are set to `(0, 0)`. -/
def conePixelLiveView (frameSize maxRadius piQ radius angle : ℚ) : ℚ × ℚ :=
  if maxRadius < radius then (0, 0)
  else if -piQ / 2 ≤ angle ∧ angle ≤ piQ / 2 then
    (((pyTrunc (npClip ((angle + piQ / 2) / piQ * frameSize) 0 (frameSize - 1)) : ℤ) : ℚ),
     ((pyTrunc (npClip ((1 - radius / maxRadius) * frameSize) 0 (frameSize - 1)) : ℤ) : ℚ))
  else (0, 0)

/-- The in-domain source-coordinate formula asserted by the specification
(4.1 steps 4-5): `srcX = normAngle * (frameSize - 1)`,
`srcY = normRadius * (frameSize - 1)`, each clamped to `[0, frameSize - 1]`. -/
def conePixelSpec (frameSize piQ maxRadius radius angle : ℚ) : ℚ × ℚ :=
  (npClip ((angle + piQ / 2) / piQ * (frameSize - 1)) 0 (frameSize - 1),
   npClip ((1 - radius / maxRadius) * (frameSize - 1)) 0 (frameSize - 1))

/-- Per-pixel warp-map decode of CircularConeVideo.py (lines 30-47): the
four 8-bit channels are widened to floats, the two axes are reconstructed as
`(r * 2^8 + g) / 4095 * frameSize` and `(b * 2^8 + a) / 4095 * frameSize`,
the y-axis is flipped to `frameSize - y` when `flip` is set
(`flip_texture = True` in the script), and both coordinates are finally
clipped to `[0, frameSize - 1]`. -/
def decodePixelVideo (r g b a : ℕ) (frameSize : ℚ) (flip : Bool) : ℚ × ℚ :=
  let mapX : ℚ := ((r : ℚ) * 2 ^ 8 + g) / 4095 * frameSize
  let mapY : ℚ := ((b : ℚ) * 2 ^ 8 + a) / 4095 * frameSize
  let mapY2 : ℚ := if flip then frameSize - mapY else mapY
  (npClip mapX 0 (frameSize - 1), npClip mapY2 0 (frameSize - 1))

/-- The decode formula asserted by the specification (4.2): reconstruct
`rawX = r * 256 + g`, `rawY = b * 256 + a`, scale by `frameSize / 4095`,
flip the y-axis when requested, and clamp to `[0, frameSize - 1]`. -/
def decodePixelSpec (r g b a : ℕ) (frameSize : ℚ) (flip : Bool) : ℚ × ℚ :=
  let rawX : ℚ := (r : ℚ) * 256 + g
  let rawY : ℚ := (b : ℚ) * 256 + a
  let srcX : ℚ := rawX / 4095 * frameSize
  let srcY : ℚ := rawY / 4095 * frameSize
  let srcY2 : ℚ := if flip then frameSize - srcY else srcY
  (npClip srcX 0 (frameSize - 1), npClip srcY2 0 (frameSize - 1))

/-- An RGBA raster as handed back by `cv2.imread(..., IMREAD_UNCHANGED)`:
pixel dimensions, a channel count, and the per-pixel channel values. -/
structure EncodedImage where
  height : ℕ
  width : ℕ
  channels : ℕ
  px : ℕ → ℕ → ℕ × ℕ × ℕ × ℕ

/-- Warp-map load-and-validate step of CircularConeVideo.py (lines 22-47):
an unreadable file (`cv2.imread` returned `None`, modelled as `none`) or an
image whose channel count is not 4 raises `ValueError` before any decoding;
otherwise every pixel is decoded with `decodePixelVideo`. -/
def loadWarpMap (img : Option EncodedImage) (frameSize : ℚ) (flip : Bool) :
    Except String (ℕ → ℕ → ℚ × ℚ) :=
  match img with
  | none => Except.error "Warp map must be a valid 4-channel RGBA image."
  | some im =>
    if im.channels = 4 then
      Except.ok (fun y x =>
        decodePixelVideo (im.px y x).1 (im.px y x).2.1 (im.px y x).2.2.1
          (im.px y x).2.2.2 frameSize flip)
    else Except.error "Warp map must be a valid 4-channel RGBA image."

/-- Whether an `Except` result is a success. -/
def exceptOk {ε α : Type} : Except ε α → Bool
  | Except.ok _ => true
  | Except.error _ => false

/-- Keyboard controls recognized by CircularConeVideo.py's loop
(lines 136-157); keys other than these leave the state unchanged. -/
inductive ControlKey
  | rotLeft
  | rotRight
  | alphaUp
  | alphaDown
  | powerDown
  | powerUp
  | other

/-- Run-time control state of CircularConeVideo.py: rotation angle in
degrees, brightness alpha, brightness power. -/
structure ControlState where
  rotationDeg : ℚ
  alpha : ℚ
  power : ℚ

/-- Initial control state of CircularConeVideo.py (lines 9-11):
`rotation_angle = 0`, `alpha = 1.0`, `power = 1.0`. -/
def initControls : ControlState := ⟨0, 1, 1⟩

/-- One keypress of CircularConeVideo.py's keyboard handling
(lines 140-157): rotation moves by ±5 unclamped; alpha and power move by
±0.1 and are clamped into `[0.1, 3.0]` by `min`/`max`. -/
def controlStep (st : ControlState) (k : ControlKey) : ControlState :=
  match k with
  | ControlKey.rotLeft => ⟨st.rotationDeg - 5, st.alpha, st.power⟩
  | ControlKey.rotRight => ⟨st.rotationDeg + 5, st.alpha, st.power⟩
  | ControlKey.alphaUp => ⟨st.rotationDeg, min (st.alpha + 1 / 10) 3, st.power⟩
  | ControlKey.alphaDown => ⟨st.rotationDeg, max (st.alpha - 1 / 10) (1 / 10), st.power⟩
  | ControlKey.powerDown => ⟨st.rotationDeg, st.alpha, max (st.power - 1 / 10) (1 / 10)⟩
  | ControlKey.powerUp => ⟨st.rotationDeg, st.alpha, min (st.power + 1 / 10) 3⟩
  | ControlKey.other => st

/-- The documented bounds on the brightness parameters:
`alpha ∈ [0.1, 3.0]` and `power ∈ [0.1, 3.0]`. -/
def brightnessInBounds (st : ControlState) : Prop :=
  1 / 10 ≤ st.alpha ∧ st.alpha ≤ 3 ∧ 1 / 10 ≤ st.power ∧ st.power ≤ 3

/-- A BGR frame: height, width, and per-pixel 8-bit channel values. -/
@[ext]
structure Frame where
  h : ℕ
  w : ℕ
  px : ℕ → ℕ → ℕ × ℕ × ℕ

/-- cv2.resize to explicitly requested output dimensions: the output has the
requested shape; the pixel content is the resampling library's, passed in as
the collaborator `content` (input frame, output dims, output pixel). -/
def cvResize (content : Frame → ℕ → ℕ → ℕ → ℕ → ℕ × ℕ × ℕ) (f : Frame)
    (outH outW : ℕ) : Frame :=
  ⟨outH, outW, fun y x => content f outH outW y x⟩

/-- Fitted subject scale of CircularConeImage.py (line 38):
`min(frameSize / max(h, w), 1.0) * 0.6`. -/
def fitScale (h w frameSize : ℕ) : ℚ :=
  min ((frameSize : ℚ) / ((max h w : ℕ) : ℚ)) 1 * (3 / 5)

/-- Scaled subject dimension of CircularConeImage.py (line 39):
`max(1, int(d * fitScale))`. -/
def fitDim (d : ℕ) (s : ℚ) : ℕ := max 1 (pyTrunc ((d : ℚ) * s)).toNat

/-- Scaled dimension of the `cv2.resize(..., fx=0.6, fy=0.6)` call
(CircularConeLive.py line 87, CircularConeVideo.py line 87,
live_view.py line 492, upload_view.py line 204): OpenCV computes the output
shape by rounding `0.6 * n` to the nearest integer (never a tie, since
`3n/5` has fractional part in `{0, .2, .4, .6, .8}`). -/
def scaleDim (n : ℕ) : ℕ := (round ((3 / 5 : ℚ) * (n : ℚ))).toNat

/-- Integer centering offset `(frameSize - dim) // 2`
(CircularConeImage.py lines 42-43, live_view.py lines 494-495), with
Python's `//` being floor division on possibly negative integers. -/
def centerOff (frameSize dim : ℕ) : ℤ :=
  pyFloorDiv ((frameSize : ℤ) - (dim : ℤ)) 2

/-- Paste a sub-frame into a zeroed canvas at the given offsets
(the `padded[y_off : y_off + h, x_off : x_off + w] = scaled` slice
assignment). -/
def pasteAt (canvasH canvasW yOff xOff : ℕ) (sub : Frame) : Frame :=
  ⟨canvasH, canvasW, fun y x =>
    if yOff ≤ y ∧ y < yOff + sub.h ∧ xOff ≤ x ∧ x < xOff + sub.w then
      sub.px (y - yOff) (x - xOff)
    else (0, 0, 0)⟩

/-- Subject centering and scaling of CircularConeImage.py (lines 35-44):
compute the fitted scale, resize the subject to the fitted dimensions, and
paste it centered into a zero canvas of `frameSize × frameSize`. -/
def imageComposite (content : Frame → ℕ → ℕ → ℕ → ℕ → ℕ × ℕ × ℕ)
    (src : Frame) (frameSize : ℕ) : Frame :=
  let s := fitScale src.h src.w frameSize
  let scaled := cvResize content src (fitDim src.h s) (fitDim src.w s)
  pasteAt frameSize frameSize ((centerOff frameSize scaled.h).toNat)
    ((centerOff frameSize scaled.w).toNat) scaled

/-- Subject centering and scaling of live_view.py's `_apply_warp`
(lines 491-496) and its copies: scale the foreground by 0.6 and paste it
into `zeros_like(fg)` at offsets computed from the working frame size. -/
def scaledComposite (content : Frame → ℕ → ℕ → ℕ → ℕ → ℕ × ℕ × ℕ)
    (frameSize : ℕ) (fg : Frame) : Frame :=
  let scaled := cvResize content fg (scaleDim fg.h) (scaleDim fg.w)
  pasteAt fg.h fg.w ((centerOff frameSize scaled.h).toNat)
    ((centerOff frameSize scaled.w).toNat) scaled

/-- Foreground gating (live_view.py lines 483-484): keep the pixels where
the mask holds, zero the rest. -/
def applyMaskBool (mask : ℕ → ℕ → Bool) (f : Frame) : Frame :=
  ⟨f.h, f.w, fun y x => if mask y x then f.px y x else (0, 0, 0)⟩

/-- Segmentation step of LiveView._apply_warp (live_view.py lines 477-488):
if no segmentor is available the square frame passes through; otherwise the
segmentation call (a collaborator that may fail) is tried, a confidence
above 0.5 marks foreground, and any exception falls back to the ungated
frame (`except: fg = sq`). -/
def liveSegStep {ε : Type} (segmentor : Option (Frame → Except ε (ℕ → ℕ → ℚ)))
    (sq : Frame) : Frame :=
  match segmentor with
  | none => sq
  | some s =>
    match s sq with
    | Except.ok raw => applyMaskBool (fun y x => decide (1 / 2 < raw y x)) sq
    | Except.error _ => sq

/-- Mask post-processing of UploadView._segment_person (upload_view.py
lines 256-259): blur the confidence map (library collaborator `blur`),
threshold at 0.35 to a 0/255 mask, morphologically close it (library
collaborator `close`). -/
def uploadMask (blur : (ℕ → ℕ → ℚ) → ℕ → ℕ → ℚ)
    (close : (ℕ → ℕ → ℕ) → ℕ → ℕ → ℕ) (raw : ℕ → ℕ → ℚ) : ℕ → ℕ → ℕ :=
  close (fun y x => if 7 / 20 < blur raw y x then 255 else 0)

/-- `cv2.bitwise_and(src, src, mask=mask)` (upload_view.py line 260): keep
the pixels where the mask is nonzero, zero the rest. -/
def bitwiseAndMask (mask : ℕ → ℕ → ℕ) (f : Frame) : Frame :=
  ⟨f.h, f.w, fun y x => if mask y x ≠ 0 then f.px y x else (0, 0, 0)⟩

/-- UploadView._segment_person (upload_view.py lines 251-261): a missing
segmentor passes the frame through; otherwise the segmentation call is made
with no exception handler, so a failing call propagates its error. -/
def segmentPerson {ε : Type} (blur : (ℕ → ℕ → ℚ) → ℕ → ℕ → ℚ)
    (close : (ℕ → ℕ → ℕ) → ℕ → ℕ → ℕ)
    (segmentor : Option (Frame → Except ε (ℕ → ℕ → ℚ))) (sq : Frame) :
    Except ε Frame :=
  match segmentor with
  | none => Except.ok sq
  | some s =>
    Except.map (fun raw => bitwiseAndMask (uploadMask blur close raw) sq) (s sq)

/-- Channel-wise brightness pre-adjustment of CircularConeVideo.py
(lines 123-126): `clip(alpha * (v / 255) ** power * 255, 0, 255)` cast back
to uint8 (truncation); `fpow` is numpy's power collaborator. -/
def brightnessChannel (fpow : ℚ → ℚ → ℚ) (alpha power : ℚ) (v : ℕ) : ℕ :=
  (pyTrunc (npClip (alpha * fpow ((v : ℚ) / 255) power * 255) 0 255)).toNat

/-- Brightness pre-adjustment applied to every channel of every pixel. -/
def brightnessAdjust (fpow : ℚ → ℚ → ℚ) (alpha power : ℚ) (f : Frame) : Frame :=
  ⟨f.h, f.w, fun y x =>
    (brightnessChannel fpow alpha power (f.px y x).1,
     brightnessChannel fpow alpha power (f.px y x).2.1,
     brightnessChannel fpow alpha power (f.px y x).2.2)⟩

/-- Clamp an integer sample index into `[0, n - 1]`. -/
def clampIdx (i : ℤ) (n : ℕ) : ℕ := (min (max i 0) ((n : ℤ) - 1)).toNat

/-- Bilinear sampling with edge replication, the semantics of `cv2.remap`
with `INTER_LINEAR` and `BORDER_REPLICATE` used to rotate the warp map
(CircularConeVideo.py lines 117-121). -/
def bilinearReplicate (m : ℕ → ℕ → ℚ) (hgt wid : ℕ) (sx sy : ℚ) : ℚ :=
  let x0 : ℤ := ⌊sx⌋
  let y0 : ℤ := ⌊sy⌋
  let fx : ℚ := sx - (x0 : ℚ)
  let fy : ℚ := sy - (y0 : ℚ)
  let v00 := m (clampIdx y0 hgt) (clampIdx x0 wid)
  let v01 := m (clampIdx y0 hgt) (clampIdx (x0 + 1) wid)
  let v10 := m (clampIdx (y0 + 1) hgt) (clampIdx x0 wid)
  let v11 := m (clampIdx (y0 + 1) hgt) (clampIdx (x0 + 1) wid)
  (1 - fy) * ((1 - fx) * v00 + fx * v01) + fy * ((1 - fx) * v10 + fx * v11)

/-- Bilinear sampling with a constant black border, the semantics of
`cv2.remap` with `INTER_LINEAR` and `BORDER_CONSTANT`, border value 0, used
to warp the frame. -/
def bilinearConstZero (m : ℕ → ℕ → ℚ) (hgt wid : ℕ) (sx sy : ℚ) : ℚ :=
  let tap : ℤ → ℤ → ℚ := fun yy xx =>
    if 0 ≤ yy ∧ yy < (hgt : ℤ) ∧ 0 ≤ xx ∧ xx < (wid : ℤ) then
      m yy.toNat xx.toNat
    else 0
  let x0 : ℤ := ⌊sx⌋
  let y0 : ℤ := ⌊sy⌋
  let fx : ℚ := sx - (x0 : ℚ)
  let fy : ℚ := sy - (y0 : ℚ)
  (1 - fy) * ((1 - fx) * tap y0 x0 + fx * tap y0 (x0 + 1)) +
    fy * ((1 - fx) * tap (y0 + 1) x0 + fx * tap (y0 + 1) (x0 + 1))

/-- A 2x2 texture-coordinate rotation matrix. -/
structure Mat2 where
  m00 : ℚ
  m01 : ℚ
  m10 : ℚ
  m11 : ℚ

/-- Modelled from the spec: section 4.3's aspect-scale parameterization of
the rotation matrix (`rotate(map, angleDegrees, aspectScale)`); the script's
`get_rotation_matrix` (CircularConeVideo.py lines 50-66) hardcodes the
tablet aspect scale to `(4, 3)`.  `c` and `s` stand for the library values
`cos(angle)` and `sin(angle)`. -/
def rotationMatrixAspect (c s sx sy : ℚ) : Mat2 :=
  ⟨c / sx, -s / sx, s / sy, c / sy⟩

/-- get_rotation_matrix of CircularConeVideo.py (lines 50-66): the
aspect-scaled rotation matrix at the hardcoded tablet scale `(4, 3)`. -/
def getRotationMatrix (c s : ℚ) : Mat2 := rotationMatrixAspect c s 4 3

/-- Rotated lookup coordinates of CircularConeVideo.py (lines 99-115):
normalize the pixel position to `[0,1]`, center at `(0.5, 0.5)`, apply the
matrix, re-add the center and re-expand to pixel coordinates. -/
def rotatedLookup (mt : Mat2) (wid hgt y x : ℕ) : ℚ × ℚ :=
  let xc : ℚ := (x : ℚ) / (wid : ℚ) - 1 / 2
  let yc : ℚ := (y : ℚ) / (hgt : ℚ) - 1 / 2
  ((mt.m00 * xc + mt.m01 * yc + 1 / 2) * wid,
   (mt.m10 * xc + mt.m11 * yc + 1 / 2) * hgt)

/-- Per-pixel warp-map rotation (CircularConeVideo.py lines 117-121):
bilinear lookup of the original scalar map at the rotated coordinates with
edge replication. -/
def rotateMapPixel (mt : Mat2) (m : ℕ → ℕ → ℚ) (hgt wid y x : ℕ) : ℚ :=
  bilinearReplicate m hgt wid (rotatedLookup mt wid hgt y x).1
    (rotatedLookup mt wid hgt y x).2

/-- OpenCV's `saturate_cast<uchar>`: round to nearest and clamp to
`[0, 255]`. -/
def satCastU8 (q : ℚ) : ℕ := (min 255 (max 0 (round q))).toNat

/-- Geometric remap of a BGR frame through a coordinate map
(`cv2.remap(frame, mapX, mapY, INTER_LINEAR, BORDER_CONSTANT, black)`,
live_view.py lines 499-503). -/
def remapFrame (mapX mapY : ℕ → ℕ → ℚ) (outH outW : ℕ) (f : Frame) : Frame :=
  ⟨outH, outW, fun y x =>
    (satCastU8 (bilinearConstZero (fun yy xx => ((f.px yy xx).1 : ℚ))
        f.h f.w (mapX y x) (mapY y x)),
     satCastU8 (bilinearConstZero (fun yy xx => ((f.px yy xx).2.1 : ℚ))
        f.h f.w (mapX y x) (mapY y x)),
     satCastU8 (bilinearConstZero (fun yy xx => ((f.px yy xx).2.2 : ℚ))
        f.h f.w (mapX y x) (mapY y x)))⟩

/-- Saturation channel scaling of enhance_saturation_contrast
(live_view.py line 31): scale, clip to `[0, 255]`, cast back to uint8. -/
def satChannel (saturationScale : ℚ) (s : ℕ) : ℕ :=
  (pyTrunc (npClip ((s : ℚ) * saturationScale) 0 255)).toNat

/-- One channel of `cv2.convertScaleAbs` (live_view.py line 33):
`saturate_cast<uchar>(|alpha * v + beta|)`. -/
def scaleAbsChannel (contrastAlpha brightnessBeta : ℚ) (v : ℕ) : ℕ :=
  satCastU8 |contrastAlpha * (v : ℚ) + brightnessBeta|

/-- enhance_saturation_contrast of live_view.py (lines 28-34): convert BGR
to HSV (library collaborator `toHSV`), scale the saturation channel, convert
back (library collaborator `fromHSV`), then apply contrast/brightness. -/
def enhanceSaturationContrast (toHSV fromHSV : Frame → Frame)
    (saturationScale contrastAlpha brightnessBeta : ℚ) (f : Frame) : Frame :=
  let hsv := toHSV f
  let boosted : Frame := ⟨hsv.h, hsv.w, fun y x =>
    ((hsv.px y x).1, satChannel saturationScale (hsv.px y x).2.1,
     (hsv.px y x).2.2)⟩
  let enhanced := fromHSV boosted
  ⟨enhanced.h, enhanced.w, fun y x =>
    (scaleAbsChannel contrastAlpha brightnessBeta (enhanced.px y x).1,
     scaleAbsChannel contrastAlpha brightnessBeta (enhanced.px y x).2.1,
     scaleAbsChannel contrastAlpha brightnessBeta (enhanced.px y x).2.2)⟩

/-- LiveView._apply_warp (live_view.py lines 464-510): resize the camera
frame to the working square, optionally gate the background out, center and
scale the subject, remap through the precomputed cone maps, and apply the
saturation/contrast grading with the script's constants
`(1.4, 1.8, -25)`. -/
def applyWarp {ε : Type} (content : Frame → ℕ → ℕ → ℕ → ℕ → ℕ × ℕ × ℕ)
    (toHSV fromHSV : Frame → Frame)
    (segmentor : Option (Frame → Except ε (ℕ → ℕ → ℚ)))
    (mapX mapY : ℕ → ℕ → ℚ) (frameSize canvasSize : ℕ) (frame : Frame) :
    Frame :=
  let sq := cvResize content frame frameSize frameSize
  let fg := liveSegStep segmentor sq
  let padded := scaledComposite content frameSize fg
  let warped := remapFrame mapX mapY canvasSize canvasSize padded
  enhanceSaturationContrast toHSV fromHSV (7 / 5) (9 / 5) (-25) warped

/-- The final grading transform exactly as the specification words it
(section 4.5): `output = clamp(contrastAlpha * pixel + brightnessBeta,
0, 255)`, rounded to a byte value.  Note the contrast with the code's
`cv2.convertScaleAbs`, which takes an absolute value before saturating. -/
def specGradeChannel (contrastAlpha brightnessBeta : ℚ) (v : ℕ) : ℕ :=
  (round (npClip (contrastAlpha * (v : ℚ) + brightnessBeta) 0 255)).toNat

/-- The saturation/contrast grading stage as the specification words it
(section 4.5): convert to an HSV-like space, scale the saturation channel
(clamped to the valid range), convert back, then apply
`clamp(contrastAlpha * pixel + brightnessBeta, 0, 255)` channel-wise. -/
def specEnhance (toHSV fromHSV : Frame → Frame)
    (saturationScale contrastAlpha brightnessBeta : ℚ) (f : Frame) : Frame :=
  let hsv := toHSV f
  let boosted : Frame := ⟨hsv.h, hsv.w, fun y x =>
    ((hsv.px y x).1, satChannel saturationScale (hsv.px y x).2.1,
     (hsv.px y x).2.2)⟩
  let enhanced := fromHSV boosted
  ⟨enhanced.h, enhanced.w, fun y x =>
    (specGradeChannel contrastAlpha brightnessBeta (enhanced.px y x).1,
     specGradeChannel contrastAlpha brightnessBeta (enhanced.px y x).2.1,
     specGradeChannel contrastAlpha brightnessBeta (enhanced.px y x).2.2)⟩

/-- The per-frame pipeline as the specification words it (section 4.5):
subject compositing, then the channel-wise brightness pre-adjustment
`clamp(alpha * (in/255)^power * 255, 0, 255)`, then the geometric remap
with bilinear interpolation and constant black border, then saturation
scaling followed by `clamp(contrastAlpha * pixel + brightnessBeta, 0, 255)`. -/
def specProcess {ε : Type} (content : Frame → ℕ → ℕ → ℕ → ℕ → ℕ × ℕ × ℕ)
    (toHSV fromHSV : Frame → Frame) (fpow : ℚ → ℚ → ℚ)
    (segmentor : Option (Frame → Except ε (ℕ → ℕ → ℚ)))
    (mapX mapY : ℕ → ℕ → ℚ) (frameSize canvasSize : ℕ)
    (brightnessAlpha powerExponent saturationScale contrastAlpha
      brightnessBeta : ℚ) (frame : Frame) : Frame :=
  let composited := scaledComposite content frameSize
    (liveSegStep segmentor (cvResize content frame frameSize frameSize))
  let bright := brightnessAdjust fpow brightnessAlpha powerExponent composited
  let warped := remapFrame mapX mapY canvasSize canvasSize bright
  specEnhance toHSV fromHSV saturationScale contrastAlpha brightnessBeta warped

/-- The strict four-stage composition with the grading stage as the CODE
performs it: identical to `specProcess` except that the final transform is
`cv2.convertScaleAbs`'s `saturate(|contrastAlpha * pixel +
brightnessBeta|)` (live_view.py line 33) rather than the specification's
clamp. -/
def amendedProcess {ε : Type} (content : Frame → ℕ → ℕ → ℕ → ℕ → ℕ × ℕ × ℕ)
    (toHSV fromHSV : Frame → Frame) (fpow : ℚ → ℚ → ℚ)
    (segmentor : Option (Frame → Except ε (ℕ → ℕ → ℚ)))
    (mapX mapY : ℕ → ℕ → ℚ) (frameSize canvasSize : ℕ)
    (brightnessAlpha powerExponent saturationScale contrastAlpha
      brightnessBeta : ℚ) (frame : Frame) : Frame :=
  let composited := scaledComposite content frameSize
    (liveSegStep segmentor (cvResize content frame frameSize frameSize))
  let bright := brightnessAdjust fpow brightnessAlpha powerExponent composited
  let warped := remapFrame mapX mapY canvasSize canvasSize bright
  enhanceSaturationContrast toHSV fromHSV saturationScale contrastAlpha
    brightnessBeta warped

/-- All three channels of a pixel fit in a byte. -/
def pixelU8 (p : ℕ × ℕ × ℕ) : Prop := p.1 ≤ 255 ∧ p.2.1 ≤ 255 ∧ p.2.2 ≤ 255

theorem npClip_eq_of_mem (v lo hi : ℚ) (h1 : lo ≤ v) (h2 : v ≤ hi) :
    npClip v lo hi = v := by
  unfold npClip
  rw [max_eq_right h1, min_eq_right h2]

theorem npClip_le_hi (v lo hi : ℚ) : npClip v lo hi ≤ hi := min_le_left _ _

theorem lo_le_npClip (v lo hi : ℚ) (h : lo ≤ hi) : lo ≤ npClip v lo hi :=
  le_min h (le_max_left _ _)

theorem pyTrunc_cast_nonneg (q : ℚ) (h : 0 ≤ q) : (0 : ℚ) ≤ ((pyTrunc q : ℤ) : ℚ) := by
  unfold pyTrunc
  rw [if_pos h]
  exact_mod_cast Int.le_floor.mpr (by exact_mod_cast h)

theorem pyTrunc_cast_le (q : ℚ) (h : 0 ≤ q) : ((pyTrunc q : ℤ) : ℚ) ≤ q := by
  unfold pyTrunc
  rw [if_pos h]
  exact Int.floor_le q

/-- C1 counterexample: with `frameSize = 300`, `maxRadius = 300`, an
exactly-representable angular span, and the destination pixel on the
positive x-axis at half radius (`radius = 150`, `angle = 0`),
CircularConeLive.py's builder stores `(150, 150)` — `int(0.5 * frameSize)`
on each axis — while the claimed formula
`normAngle * (frameSize - 1)` clamped gives `(149.5, 149.5)`. -/
theorem conePixelLive_ne_claimed_formula :
    conePixelLive 300 300 3 150 0 ≠ conePixelSpec 300 3 300 150 0 := by
  norm_num [conePixelLive, conePixelSpec, npClip, pyTrunc]

/-- C1 (amended): for every in-domain destination pixel, the builder in
CircularConeImage.py sets the source coordinates to exactly
`srcX = normAngle * (frameSize - 1)` and `srcY = normRadius * (frameSize - 1)`
(each already inside `[0, frameSize - 1]`, so clamping is the identity on
them), whereas the builder in CircularConeLive.py instead sets them to
`int(normAngle * frameSize)` and `int(normRadius * frameSize)` — truncated
to an integer and scaled by `frameSize`, not `frameSize - 1` — each clipped
to `[0, frameSize - 1]`. -/
theorem conePixelImage_eq_spec_and_conePixelLive_truncates
    (frameSize maxRadius piQ radius angle : ℚ)
    (hfs : 1 ≤ frameSize) (hmr : 0 < maxRadius) (hpi : 0 < piQ)
    (hr0 : 0 ≤ radius) (hrm : radius ≤ maxRadius)
    (ha1 : -piQ / 2 ≤ angle) (ha2 : angle ≤ piQ / 2) :
    conePixelImage frameSize maxRadius piQ radius angle =
      conePixelSpec frameSize piQ maxRadius radius angle ∧
    conePixelLive frameSize maxRadius piQ radius angle =
      (npClip ((pyTrunc ((angle + piQ / 2) / piQ * frameSize) : ℤ) : ℚ) 0 (frameSize - 1),
       npClip ((pyTrunc ((1 - radius / maxRadius) * frameSize) : ℤ) : ℚ) 0 (frameSize - 1)) := by
  have hnr : ¬ maxRadius < radius := not_lt.mpr hrm
  have hang : -piQ / 2 ≤ angle ∧ angle ≤ piQ / 2 := ⟨ha1, ha2⟩
  have hfs1 : (0 : ℚ) ≤ frameSize - 1 := by linarith
  have hA0 : (0 : ℚ) ≤ (angle + piQ / 2) / piQ := by
    apply div_nonneg _ (le_of_lt hpi)
    linarith
  have hA1 : (angle + piQ / 2) / piQ ≤ 1 := by
    rw [div_le_one hpi]
    linarith
  have hR0 : (0 : ℚ) ≤ 1 - radius / maxRadius := by
    have : radius / maxRadius ≤ 1 := by
      rw [div_le_one hmr]; exact hrm
    linarith
  have hR1 : 1 - radius / maxRadius ≤ 1 := by
    have : 0 ≤ radius / maxRadius := div_nonneg hr0 (le_of_lt hmr)
    linarith
  constructor
  · unfold conePixelImage conePixelSpec
    rw [if_neg hnr, if_pos hang]
    have e1 : npClip ((angle + piQ / 2) / piQ * (frameSize - 1)) 0 (frameSize - 1) =
        (angle + piQ / 2) / piQ * (frameSize - 1) :=
      npClip_eq_of_mem _ _ _ (mul_nonneg hA0 hfs1) (mul_le_of_le_one_left hfs1 hA1)
    have e2 : npClip ((1 - radius / maxRadius) * (frameSize - 1)) 0 (frameSize - 1) =
        (1 - radius / maxRadius) * (frameSize - 1) :=
      npClip_eq_of_mem _ _ _ (mul_nonneg hR0 hfs1) (mul_le_of_le_one_left hfs1 hR1)
    rw [e1, e2]
  · unfold conePixelLive
    rw [if_neg hnr, if_pos hang]

/-- C1 witness at `frameSize = 300`, `maxRadius = 300`, `piQ = 3`,
`radius = 150`, `angle = 0`. -/
theorem conePixelImage_eq_spec_witness :
    (1 : ℚ) ≤ 300 ∧ (0 : ℚ) < 300 ∧ (0 : ℚ) < 3 ∧ (0 : ℚ) ≤ 150 ∧
      (150 : ℚ) ≤ 300 ∧ -(3 : ℚ) / 2 ≤ 0 ∧ (0 : ℚ) ≤ 3 / 2 ∧
    (conePixelImage 300 300 3 150 0 = conePixelSpec 300 3 300 150 0 ∧
     conePixelLive 300 300 3 150 0 =
      (npClip ((pyTrunc ((0 + (3 : ℚ) / 2) / 3 * 300) : ℤ) : ℚ) 0 (300 - 1),
       npClip ((pyTrunc ((1 - (150 : ℚ) / 300) * 300) : ℤ) : ℚ) 0 (300 - 1))) :=
  ⟨by norm_num, by norm_num, by norm_num, by norm_num, by norm_num,
   by norm_num, by norm_num,
   conePixelImage_eq_spec_and_conePixelLive_truncates 300 300 3 150 0
     (by norm_num) (by norm_num) (by norm_num) (by norm_num) (by norm_num)
     (by norm_num) (by norm_num)⟩

/-- C2: for every geometry with `frameSize ≥ 1`, `maxRadius > 0` and a
positive angular-span constant, and every destination pixel (polar radius
`radius ≥ 0`, angle `angle`): if `radius ≤ maxRadius` and the angle lies in
the acceptance span then the stored source coordinate of both builders
(CircularConeImage.py and live_view.py's `build_cone_maps`) lies inside
`[0, frameSize - 1]²`; if `radius > maxRadius` both builders store exactly
`(0, 0)`; and if the angle lies outside the acceptance span both builders
store exactly `(0, 0)`. -/
theorem cone_map_range_invariant
    (frameSize maxRadius piQ radius angle : ℚ)
    (hfs : 1 ≤ frameSize) (hmr : 0 < maxRadius) (hpi : 0 < piQ) (hr0 : 0 ≤ radius) :
    (radius ≤ maxRadius → -piQ / 2 ≤ angle → angle ≤ piQ / 2 →
      ((0 ≤ (conePixelImage frameSize maxRadius piQ radius angle).1 ∧
        (conePixelImage frameSize maxRadius piQ radius angle).1 ≤ frameSize - 1 ∧
        0 ≤ (conePixelImage frameSize maxRadius piQ radius angle).2 ∧
        (conePixelImage frameSize maxRadius piQ radius angle).2 ≤ frameSize - 1) ∧
       (0 ≤ (conePixelLiveView frameSize maxRadius piQ radius angle).1 ∧
        (conePixelLiveView frameSize maxRadius piQ radius angle).1 ≤ frameSize - 1 ∧
        0 ≤ (conePixelLiveView frameSize maxRadius piQ radius angle).2 ∧
        (conePixelLiveView frameSize maxRadius piQ radius angle).2 ≤ frameSize - 1))) ∧
    (maxRadius < radius →
      conePixelImage frameSize maxRadius piQ radius angle = (0, 0) ∧
      conePixelLiveView frameSize maxRadius piQ radius angle = (0, 0)) ∧
    (¬ (-piQ / 2 ≤ angle ∧ angle ≤ piQ / 2) →
      conePixelImage frameSize maxRadius piQ radius angle = (0, 0) ∧
      conePixelLiveView frameSize maxRadius piQ radius angle = (0, 0)) := by
  have hfs1 : (0 : ℚ) ≤ frameSize - 1 := by linarith
  refine ⟨?_, ?_, ?_⟩
  · intro hrm ha1 ha2
    have hnr : ¬ maxRadius < radius := not_lt.mpr hrm
    have hang : -piQ / 2 ≤ angle ∧ angle ≤ piQ / 2 := ⟨ha1, ha2⟩
    have hA0 : (0 : ℚ) ≤ (angle + piQ / 2) / piQ := by
      apply div_nonneg _ (le_of_lt hpi)
      linarith
    have hA1 : (angle + piQ / 2) / piQ ≤ 1 := by
      rw [div_le_one hpi]; linarith
    have hR0 : (0 : ℚ) ≤ 1 - radius / maxRadius := by
      have : radius / maxRadius ≤ 1 := by rw [div_le_one hmr]; exact hrm
      linarith
    have hR1 : 1 - radius / maxRadius ≤ 1 := by
      have : 0 ≤ radius / maxRadius := div_nonneg hr0 (le_of_lt hmr)
      linarith
    constructor
    · unfold conePixelImage
      rw [if_neg hnr, if_pos hang]
      exact ⟨mul_nonneg hA0 hfs1, mul_le_of_le_one_left hfs1 hA1,
             mul_nonneg hR0 hfs1, mul_le_of_le_one_left hfs1 hR1⟩
    · unfold conePixelLiveView
      rw [if_neg hnr, if_pos hang]
      have c1 := lo_le_npClip ((angle + piQ / 2) / piQ * frameSize) 0 (frameSize - 1) hfs1
      have c2 := npClip_le_hi ((angle + piQ / 2) / piQ * frameSize) 0 (frameSize - 1)
      have c3 := lo_le_npClip ((1 - radius / maxRadius) * frameSize) 0 (frameSize - 1) hfs1
      have c4 := npClip_le_hi ((1 - radius / maxRadius) * frameSize) 0 (frameSize - 1)
      exact ⟨pyTrunc_cast_nonneg _ c1, le_trans (pyTrunc_cast_le _ c1) c2,
             pyTrunc_cast_nonneg _ c3, le_trans (pyTrunc_cast_le _ c3) c4⟩
  · intro hlt
    constructor
    · unfold conePixelImage
      rw [if_pos hlt]
    · unfold conePixelLiveView
      rw [if_pos hlt]
  · intro hout
    constructor
    · unfold conePixelImage
      rcases lt_or_le maxRadius radius with h | h
      · rw [if_pos h]
      · rw [if_neg (not_lt.mpr h), if_neg hout]
    · unfold conePixelLiveView
      rcases lt_or_le maxRadius radius with h | h
      · rw [if_pos h]
      · rw [if_neg (not_lt.mpr h), if_neg hout]

/-- C2 witness at `frameSize = 300`, `maxRadius = 300`, `piQ = 3`,
`radius = 150`, `angle = 1`. -/
theorem cone_map_range_invariant_witness :
    (1 : ℚ) ≤ 300 ∧ (0 : ℚ) < 300 ∧ (0 : ℚ) < 3 ∧ (0 : ℚ) ≤ 150 ∧
    (((150 : ℚ) ≤ 300 → -(3 : ℚ) / 2 ≤ 1 → (1 : ℚ) ≤ 3 / 2 →
      ((0 ≤ (conePixelImage 300 300 3 150 1).1 ∧
        (conePixelImage 300 300 3 150 1).1 ≤ 300 - 1 ∧
        0 ≤ (conePixelImage 300 300 3 150 1).2 ∧
        (conePixelImage 300 300 3 150 1).2 ≤ 300 - 1) ∧
       (0 ≤ (conePixelLiveView 300 300 3 150 1).1 ∧
        (conePixelLiveView 300 300 3 150 1).1 ≤ 300 - 1 ∧
        0 ≤ (conePixelLiveView 300 300 3 150 1).2 ∧
        (conePixelLiveView 300 300 3 150 1).2 ≤ 300 - 1))) ∧
     ((300 : ℚ) < 150 →
      conePixelImage 300 300 3 150 1 = (0, 0) ∧
      conePixelLiveView 300 300 3 150 1 = (0, 0)) ∧
     (¬ (-(3 : ℚ) / 2 ≤ 1 ∧ (1 : ℚ) ≤ 3 / 2) →
      conePixelImage 300 300 3 150 1 = (0, 0) ∧
      conePixelLiveView 300 300 3 150 1 = (0, 0))) :=
  ⟨by norm_num, by norm_num, by norm_num, by norm_num,
   cone_map_range_invariant 300 300 3 150 1
     (by norm_num) (by norm_num) (by norm_num) (by norm_num)⟩

/-- C3: the warp-map decode of CircularConeVideo.py agrees, for every RGBA
pixel, frame size and flip setting, with the specified formula: reconstruct
`rawX = r * 256 + g` and `rawY = b * 256 + a`, scale by `frameSize / 4095`,
replace `srcY` by `frameSize - srcY` when `flipY` is set, and finally clamp
both coordinates to `[0, frameSize - 1]`. -/
theorem decodePixelVideo_eq_spec (r g b a : ℕ) (frameSize : ℚ) (flip : Bool) :
    decodePixelVideo r g b a frameSize flip = decodePixelSpec r g b a frameSize flip := by
  unfold decodePixelVideo decodePixelSpec
  norm_num

/-- C7: loading the encoded warp map fails (with an error surfaced to the
caller, never a substituted default map) when the image is unreadable or its
channel count differs from 4, and succeeds on every 4-channel image,
yielding exactly the per-pixel decode of its channels. -/
theorem loadWarpMap_validation (frameSize : ℚ) (flip : Bool) (im : EncodedImage) :
    exceptOk (loadWarpMap none frameSize flip) = false ∧
    (im.channels ≠ 4 → exceptOk (loadWarpMap (some im) frameSize flip) = false) ∧
    (im.channels = 4 → loadWarpMap (some im) frameSize flip =
      Except.ok (fun y x =>
        decodePixelVideo (im.px y x).1 (im.px y x).2.1 (im.px y x).2.2.1
          (im.px y x).2.2.2 frameSize flip)) := by
  refine ⟨rfl, ?_, ?_⟩
  · intro hne
    simp only [loadWarpMap]
    rw [if_neg hne]
    rfl
  · intro heq
    simp only [loadWarpMap]
    rw [if_pos heq]

/-- C7 witness: a 3-channel image is rejected, exercised at
`frameSize = 300`, `flip = true`. -/
theorem loadWarpMap_validation_witness :
    exceptOk (loadWarpMap none 300 true) = false ∧
    ((EncodedImage.mk 2 2 3 (fun _ _ => (0, 0, 0, 0))).channels ≠ 4 →
      exceptOk (loadWarpMap (some (EncodedImage.mk 2 2 3 (fun _ _ => (0, 0, 0, 0)))) 300 true) =
        false) ∧
    ((EncodedImage.mk 2 2 3 (fun _ _ => (0, 0, 0, 0))).channels = 4 →
      loadWarpMap (some (EncodedImage.mk 2 2 3 (fun _ _ => (0, 0, 0, 0)))) 300 true =
        Except.ok (fun y x =>
          decodePixelVideo
            ((EncodedImage.mk 2 2 3 (fun _ _ => (0, 0, 0, 0))).px y x).1
            ((EncodedImage.mk 2 2 3 (fun _ _ => (0, 0, 0, 0))).px y x).2.1
            ((EncodedImage.mk 2 2 3 (fun _ _ => (0, 0, 0, 0))).px y x).2.2.1
            ((EncodedImage.mk 2 2 3 (fun _ _ => (0, 0, 0, 0))).px y x).2.2.2 300 true)) :=
  loadWarpMap_validation 300 true (EncodedImage.mk 2 2 3 (fun _ _ => (0, 0, 0, 0)))

theorem controlStep_preserves_bounds (st : ControlState) (k : ControlKey)
    (h : brightnessInBounds st) : brightnessInBounds (controlStep st k) := by
  obtain ⟨h1, h2, h3, h4⟩ := h
  cases k with
  | rotLeft => exact ⟨h1, h2, h3, h4⟩
  | rotRight => exact ⟨h1, h2, h3, h4⟩
  | alphaUp => exact ⟨le_min (by linarith) (by norm_num), min_le_right _ _, h3, h4⟩
  | alphaDown => exact ⟨le_max_right _ _, max_le (by linarith) (by norm_num), h3, h4⟩
  | powerDown => exact ⟨h1, h2, le_max_right _ _, max_le (by linarith) (by norm_num)⟩
  | powerUp => exact ⟨h1, h2, le_min (by linarith) (by norm_num), min_le_right _ _⟩
  | other => exact ⟨h1, h2, h3, h4⟩

/-- C9: after any finite sequence of keypresses starting from the script's
initial state (`alpha = 1.0`, `power = 1.0`), the brightness alpha and the
brightness power both lie in `[0.1, 3.0]`; out-of-bound adjustments are
clamped by the `min`/`max` in each handler, never rejected. -/
theorem controls_brightness_bounded (ks : List ControlKey) :
    brightnessInBounds (ks.foldl controlStep initControls) := by
  have hinit : brightnessInBounds initControls := by
    refine ⟨?_, ?_, ?_, ?_⟩ <;> norm_num [initControls]
  have general : ∀ (l : List ControlKey) (st : ControlState),
      brightnessInBounds st → brightnessInBounds (l.foldl controlStep st) := by
    intro l
    induction l with
    | nil => intro st h; exact h
    | cons k tl ih =>
      intro st h
      exact ih (controlStep st k) (controlStep_preserves_bounds st k h)
  exact general ks initControls hinit

theorem pyTrunc_of_nonneg (q : ℚ) (h : 0 ≤ q) : pyTrunc q = ⌊q⌋ := if_pos h

theorem fitScale_nonneg (h w fs : ℕ) : 0 ≤ fitScale h w fs := by
  unfold fitScale
  have h1 : (0 : ℚ) ≤ min ((fs : ℚ) / ((max h w : ℕ) : ℚ)) 1 :=
    le_min (div_nonneg (Nat.cast_nonneg fs) (Nat.cast_nonneg _)) zero_le_one
  positivity

theorem fitScale_lt_one (h w fs : ℕ) : fitScale h w fs < 1 := by
  unfold fitScale
  have h1 : min ((fs : ℚ) / ((max h w : ℕ) : ℚ)) 1 * (3 / 5) ≤ 1 * (3 / 5) :=
    mul_le_mul_of_nonneg_right (min_le_right _ _) (by norm_num)
  linarith

theorem one_le_fitDim (d : ℕ) (s : ℚ) : 1 ≤ fitDim d s := Nat.le_max_left 1 _

theorem fitDim_le_frameSize (h w fs d : ℕ) (hd : d ≤ max h w) (hm : 1 ≤ max h w)
    (hfs : 1 ≤ fs) : fitDim d (fitScale h w fs) ≤ fs := by
  have hM0 : ((max h w : ℕ) : ℚ) ≠ 0 := by
    have hne : max h w ≠ 0 := by omega
    exact Nat.cast_ne_zero.mpr hne
  have hs0 : 0 ≤ fitScale h w fs := fitScale_nonneg h w fs
  have hq : (d : ℚ) * fitScale h w fs ≤ (fs : ℚ) := by
    unfold fitScale
    have step1 : (d : ℚ) * min ((fs : ℚ) / ((max h w : ℕ) : ℚ)) 1 ≤
        (d : ℚ) * ((fs : ℚ) / ((max h w : ℕ) : ℚ)) :=
      mul_le_mul_of_nonneg_left (min_le_left _ _) (Nat.cast_nonneg d)
    have step2 : (d : ℚ) * ((fs : ℚ) / ((max h w : ℕ) : ℚ)) ≤
        ((max h w : ℕ) : ℚ) * ((fs : ℚ) / ((max h w : ℕ) : ℚ)) :=
      mul_le_mul_of_nonneg_right (by exact_mod_cast hd)
        (div_nonneg (Nat.cast_nonneg fs) (Nat.cast_nonneg _))
    have step3 : ((max h w : ℕ) : ℚ) * ((fs : ℚ) / ((max h w : ℕ) : ℚ)) = (fs : ℚ) :=
      mul_div_cancel₀ _ hM0
    nlinarith [Nat.cast_nonneg (α := ℚ) fs]
  have hq0 : 0 ≤ (d : ℚ) * fitScale h w fs := mul_nonneg (Nat.cast_nonneg d) hs0
  unfold fitDim
  rw [pyTrunc_of_nonneg _ hq0]
  refine Nat.max_le.mpr ⟨hfs, ?_⟩
  refine Int.toNat_le.mpr ?_
  have := Int.floor_le_floor hq
  rwa [Int.floor_natCast] at this

theorem scaleDim_le (n : ℕ) : scaleDim n ≤ n := by
  unfold scaleDim
  rw [round_eq]
  refine Int.toNat_le.mpr ?_
  have : ⌊(3 / 5 : ℚ) * (n : ℚ) + 1 / 2⌋ < (n : ℤ) + 1 := by
    refine Int.floor_lt.mpr ?_
    push_cast
    have : (0 : ℚ) ≤ (n : ℚ) := Nat.cast_nonneg n
    linarith
  omega

theorem one_le_scaleDim (n : ℕ) (hn : 1 ≤ n) : 1 ≤ scaleDim n := by
  unfold scaleDim
  rw [round_eq]
  have h1 : (1 : ℤ) ≤ ⌊(3 / 5 : ℚ) * (n : ℚ) + 1 / 2⌋ := by
    refine Int.le_floor.mpr ?_
    have : (1 : ℚ) ≤ (n : ℚ) := by exact_mod_cast hn
    push_cast
    linarith
  omega

theorem centerOff_nonneg (fs d : ℕ) (hd : d ≤ fs) : 0 ≤ centerOff fs d := by
  unfold centerOff pyFloorDiv
  rw [Int.fdiv_eq_ediv _ (by norm_num)]
  omega

theorem centerOff_add_le (fs d : ℕ) (hd : d ≤ fs) :
    centerOff fs d + (d : ℤ) ≤ (fs : ℤ) := by
  unfold centerOff pyFloorDiv
  rw [Int.fdiv_eq_ediv _ (by norm_num)]
  omega

theorem centerOff_eq_natDiv (fs d : ℕ) (hd : d ≤ fs) :
    centerOff fs d = (((fs - d) / 2 : ℕ) : ℤ) := by
  unfold centerOff pyFloorDiv
  rw [Int.fdiv_eq_ediv _ (by norm_num)]
  omega

/-- C5: both subject compositors return a frame of exactly
`workingSize × workingSize`; the scaled subject is pasted at integer
offsets `floor((workingSize - scaledDim) / 2)` on each axis; and for every
scaled dimension not exceeding the working size, the two margins split the
leftover as `floor` on the top/left and `floor + remainder` on the
bottom/right, so they differ by at most one pixel. -/
theorem subject_compositor_centering
    (content : Frame → ℕ → ℕ → ℕ → ℕ → ℕ × ℕ × ℕ) (src fg : Frame)
    (frameSize : ℕ) (hh : 1 ≤ src.h) (hw : 1 ≤ src.w) (hfs : 1 ≤ frameSize)
    (hfh : fg.h = frameSize) (hfw : fg.w = frameSize) :
    ((imageComposite content src frameSize).h = frameSize ∧
     (imageComposite content src frameSize).w = frameSize) ∧
    ((scaledComposite content frameSize fg).h = frameSize ∧
     (scaledComposite content frameSize fg).w = frameSize) ∧
    (∀ d : ℕ, d ≤ frameSize →
      centerOff frameSize d = (((frameSize - d) / 2 : ℕ) : ℤ) ∧
      frameSize - d - (frameSize - d) / 2 =
        (frameSize - d) / 2 + (frameSize - d) % 2 ∧
      (frameSize - d) % 2 ≤ 1) ∧
    fitDim src.h (fitScale src.h src.w frameSize) ≤ frameSize ∧
    fitDim src.w (fitScale src.h src.w frameSize) ≤ frameSize ∧
    scaleDim frameSize ≤ frameSize := by
  refine ⟨⟨rfl, rfl⟩, ⟨hfh, hfw⟩, ?_, ?_, ?_, scaleDim_le frameSize⟩
  · intro d hd
    exact ⟨centerOff_eq_natDiv frameSize d hd, by omega, by omega⟩
  · exact fitDim_le_frameSize src.h src.w frameSize src.h (le_max_left _ _)
      (le_trans hh (le_max_left _ _)) hfs
  · exact fitDim_le_frameSize src.h src.w frameSize src.w (le_max_right _ _)
      (le_trans hh (le_max_left _ _)) hfs

/-- C5 witness at a 5 x 7 source, a 300 x 300 working frame. -/
theorem subject_compositor_centering_witness :
    (1 ≤ (Frame.mk 5 7 (fun _ _ => (0, 0, 0))).h ∧
     1 ≤ (Frame.mk 5 7 (fun _ _ => (0, 0, 0))).w ∧ 1 ≤ 300 ∧
     (Frame.mk 300 300 (fun _ _ => (0, 0, 0))).h = 300 ∧
     (Frame.mk 300 300 (fun _ _ => (0, 0, 0))).w = 300) ∧
    (((imageComposite (fun _ _ _ _ _ => (0, 0, 0))
        (Frame.mk 5 7 (fun _ _ => (0, 0, 0))) 300).h = 300 ∧
      (imageComposite (fun _ _ _ _ _ => (0, 0, 0))
        (Frame.mk 5 7 (fun _ _ => (0, 0, 0))) 300).w = 300) ∧
     ((scaledComposite (fun _ _ _ _ _ => (0, 0, 0)) 300
        (Frame.mk 300 300 (fun _ _ => (0, 0, 0)))).h = 300 ∧
      (scaledComposite (fun _ _ _ _ _ => (0, 0, 0)) 300
        (Frame.mk 300 300 (fun _ _ => (0, 0, 0)))).w = 300) ∧
     (∀ d : ℕ, d ≤ 300 →
       centerOff 300 d = (((300 - d) / 2 : ℕ) : ℤ) ∧
       300 - d - (300 - d) / 2 = (300 - d) / 2 + (300 - d) % 2 ∧
       (300 - d) % 2 ≤ 1) ∧
     fitDim (Frame.mk 5 7 (fun _ _ => (0, 0, 0))).h
       (fitScale (Frame.mk 5 7 (fun _ _ => (0, 0, 0))).h
         (Frame.mk 5 7 (fun _ _ => (0, 0, 0))).w 300) ≤ 300 ∧
     fitDim (Frame.mk 5 7 (fun _ _ => (0, 0, 0))).w
       (fitScale (Frame.mk 5 7 (fun _ _ => (0, 0, 0))).h
         (Frame.mk 5 7 (fun _ _ => (0, 0, 0))).w 300) ≤ 300 ∧
     scaleDim 300 ≤ 300) :=
  ⟨⟨by norm_num, by norm_num, by norm_num, rfl, rfl⟩,
   subject_compositor_centering (fun _ _ _ _ _ => (0, 0, 0))
     (Frame.mk 5 7 (fun _ _ => (0, 0, 0)))
     (Frame.mk 300 300 (fun _ _ => (0, 0, 0))) 300
     (by norm_num) (by norm_num) (by norm_num) rfl rfl⟩

/-- C10: subject compositing is total and in-bounds.  The fitted scale of
CircularConeImage.py is strictly below 1; on each axis the scaled dimension
is at least 1 and at most the working size; both centering offsets are
non-negative; and offset plus scaled dimension never exceeds the working
size, so the slice assignment pasting the subject stays in bounds.  The
same holds for the fixed 0.6 scaling of the live/video scripts applied to a
working-size square frame. -/
theorem subject_compositor_safe (h w frameSize : ℕ)
    (hh : 1 ≤ h) (hw : 1 ≤ w) (hfs : 1 ≤ frameSize) :
    fitScale h w frameSize < 1 ∧
    (1 ≤ fitDim h (fitScale h w frameSize) ∧
     fitDim h (fitScale h w frameSize) ≤ frameSize ∧
     1 ≤ fitDim w (fitScale h w frameSize) ∧
     fitDim w (fitScale h w frameSize) ≤ frameSize) ∧
    (0 ≤ centerOff frameSize (fitDim h (fitScale h w frameSize)) ∧
     centerOff frameSize (fitDim h (fitScale h w frameSize)) +
       (fitDim h (fitScale h w frameSize) : ℤ) ≤ (frameSize : ℤ) ∧
     0 ≤ centerOff frameSize (fitDim w (fitScale h w frameSize)) ∧
     centerOff frameSize (fitDim w (fitScale h w frameSize)) +
       (fitDim w (fitScale h w frameSize) : ℤ) ≤ (frameSize : ℤ)) ∧
    (1 ≤ scaleDim frameSize ∧ scaleDim frameSize ≤ frameSize ∧
     0 ≤ centerOff frameSize (scaleDim frameSize) ∧
     centerOff frameSize (scaleDim frameSize) + (scaleDim frameSize : ℤ) ≤
       (frameSize : ℤ)) := by
  have hm : 1 ≤ max h w := le_trans hh (le_max_left _ _)
  have hdh : fitDim h (fitScale h w frameSize) ≤ frameSize :=
    fitDim_le_frameSize h w frameSize h (le_max_left _ _) hm hfs
  have hdw : fitDim w (fitScale h w frameSize) ≤ frameSize :=
    fitDim_le_frameSize h w frameSize w (le_max_right _ _) hm hfs
  have hsd : scaleDim frameSize ≤ frameSize := scaleDim_le frameSize
  exact ⟨fitScale_lt_one h w frameSize,
    ⟨one_le_fitDim h _, hdh, one_le_fitDim w _, hdw⟩,
    ⟨centerOff_nonneg _ _ hdh, centerOff_add_le _ _ hdh,
     centerOff_nonneg _ _ hdw, centerOff_add_le _ _ hdw⟩,
    ⟨one_le_scaleDim frameSize hfs, hsd,
     centerOff_nonneg _ _ hsd, centerOff_add_le _ _ hsd⟩⟩

/-- C10 witness at a 5 x 7 source and a 300-pixel working frame. -/
theorem subject_compositor_safe_witness :
    (1 ≤ 5 ∧ 1 ≤ 7 ∧ 1 ≤ 300) ∧
    (fitScale 5 7 300 < 1 ∧
     (1 ≤ fitDim 5 (fitScale 5 7 300) ∧ fitDim 5 (fitScale 5 7 300) ≤ 300 ∧
      1 ≤ fitDim 7 (fitScale 5 7 300) ∧ fitDim 7 (fitScale 5 7 300) ≤ 300) ∧
     (0 ≤ centerOff 300 (fitDim 5 (fitScale 5 7 300)) ∧
      centerOff 300 (fitDim 5 (fitScale 5 7 300)) +
        (fitDim 5 (fitScale 5 7 300) : ℤ) ≤ (300 : ℤ) ∧
      0 ≤ centerOff 300 (fitDim 7 (fitScale 5 7 300)) ∧
      centerOff 300 (fitDim 7 (fitScale 5 7 300)) +
        (fitDim 7 (fitScale 5 7 300) : ℤ) ≤ (300 : ℤ)) ∧
     (1 ≤ scaleDim 300 ∧ scaleDim 300 ≤ 300 ∧
      0 ≤ centerOff 300 (scaleDim 300) ∧
      centerOff 300 (scaleDim 300) + (scaleDim 300 : ℤ) ≤ (300 : ℤ))) :=
  ⟨⟨by norm_num, by norm_num, by norm_num⟩,
   subject_compositor_safe 5 7 300 (by norm_num) (by norm_num) (by norm_num)⟩

theorem clampIdx_natCast (y n : ℕ) (hy : y < n) : clampIdx (y : ℤ) n = y := by
  unfold clampIdx
  have h1 : max (y : ℤ) 0 = (y : ℤ) := max_eq_left (Int.natCast_nonneg y)
  have h2 : min (y : ℤ) ((n : ℤ) - 1) = (y : ℤ) := min_eq_left (by omega)
  rw [h1, h2, Int.toNat_natCast]

theorem bilinearReplicate_intGrid (m : ℕ → ℕ → ℚ) (hgt wid y x : ℕ)
    (hy : y < hgt) (hx : x < wid) :
    bilinearReplicate m hgt wid (x : ℚ) (y : ℚ) = m y x := by
  unfold bilinearReplicate
  dsimp only
  rw [Int.floor_natCast, Int.floor_natCast,
    clampIdx_natCast y hgt hy, clampIdx_natCast x wid hx]
  simp only [Int.cast_natCast, sub_self]
  ring

/-- C6: the map-rotation lookup at angle 0 (cosine 1, sine 0) and aspect
scale `(1, 1)` reproduces the input coordinate map exactly at every pixel:
the rotated lookup coordinates collapse to the pixel's own integer
position, where the bilinear sample returns the stored value with no
interpolation error at all. -/
theorem mapRotator_identity (m : ℕ → ℕ → ℚ) (hgt wid y x : ℕ)
    (hy : y < hgt) (hx : x < wid) :
    rotateMapPixel (rotationMatrixAspect 1 0 1 1) m hgt wid y x = m y x := by
  have hw0 : (wid : ℚ) ≠ 0 := Nat.cast_ne_zero.mpr (by omega)
  have hh0 : (hgt : ℚ) ≠ 0 := Nat.cast_ne_zero.mpr (by omega)
  have hmat : rotationMatrixAspect 1 0 1 1 = Mat2.mk 1 0 0 1 := by
    unfold rotationMatrixAspect
    norm_num
  rw [hmat]
  unfold rotateMapPixel rotatedLookup
  dsimp only
  have ex : ((1 : ℚ) * ((x : ℚ) / (wid : ℚ) - 1 / 2) +
      0 * ((y : ℚ) / (hgt : ℚ) - 1 / 2) + 1 / 2) * (wid : ℚ) = (x : ℚ) := by
    field_simp
    ring
  have ey : ((0 : ℚ) * ((x : ℚ) / (wid : ℚ) - 1 / 2) +
      1 * ((y : ℚ) / (hgt : ℚ) - 1 / 2) + 1 / 2) * (hgt : ℚ) = (y : ℚ) := by
    field_simp
    ring
  rw [ex, ey]
  exact bilinearReplicate_intGrid m hgt wid y x hy hx

/-- C6 witness on a 2 x 2 map at pixel (1, 0). -/
theorem mapRotator_identity_witness :
    1 < 2 ∧ 0 < 2 ∧
    rotateMapPixel (rotationMatrixAspect 1 0 1 1)
      (fun yy xx => (100 * yy + xx : ℚ)) 2 2 1 0 =
      (fun yy xx => (100 * yy + xx : ℚ)) 1 0 :=
  ⟨by norm_num, by norm_num,
   mapRotator_identity (fun yy xx => (100 * yy + xx : ℚ)) 2 2 1 0
     (by norm_num) (by norm_num)⟩

theorem brightnessChannel_id (fpow : ℚ → ℚ → ℚ) (hpow : ∀ q, fpow q 1 = q)
    (v : ℕ) (hv : v ≤ 255) : brightnessChannel fpow 1 1 v = v := by
  unfold brightnessChannel
  rw [hpow]
  have hval : (1 : ℚ) * ((v : ℚ) / 255) * 255 = (v : ℚ) := by field_simp
  rw [hval,
    npClip_eq_of_mem _ _ _ (Nat.cast_nonneg v) (by exact_mod_cast hv),
    pyTrunc_of_nonneg _ (Nat.cast_nonneg v), Int.floor_natCast,
    Int.toNat_natCast]

theorem brightnessAdjust_one_one (fpow : ℚ → ℚ → ℚ) (hpow : ∀ q, fpow q 1 = q)
    (f : Frame) (hpx : ∀ y x, pixelU8 (f.px y x)) :
    brightnessAdjust fpow 1 1 f = f := by
  obtain ⟨fh, fw, fpx⟩ := f
  unfold brightnessAdjust
  simp only [Frame.mk.injEq]
  refine ⟨trivial, trivial, ?_⟩
  funext y x
  obtain ⟨h1, h2, h3⟩ := hpx y x
  dsimp only at h1 h2 h3 ⊢
  rw [brightnessChannel_id fpow hpow _ h1, brightnessChannel_id fpow hpow _ h2,
    brightnessChannel_id fpow hpow _ h3]

/-- C4 counterexample: with black resampling content, identity color
conversions, no segmentor, zero maps and a black input frame, every pixel
reaching the grading stage is black, and there the pipeline and the claimed
composition disagree: the code's `cv2.convertScaleAbs` computes
`saturate(|1.8 * 0 - 25|) = 25` while the claim's
`clamp(1.8 * 0 - 25, 0, 255)` gives `0`, so `LiveView._apply_warp` is not
the claimed strict composition. -/
theorem applyWarp_ne_claimed_composition :
    applyWarp (fun _ _ _ _ _ => ((0, 0, 0) : ℕ × ℕ × ℕ)) id id
        (none : Option (Frame → Except Unit (ℕ → ℕ → ℚ)))
        (fun _ _ => (0 : ℚ)) (fun _ _ => (0 : ℚ)) 2 2
        (Frame.mk 1 1 (fun _ _ => (0, 0, 0))) ≠
      specProcess (fun _ _ _ _ _ => ((0, 0, 0) : ℕ × ℕ × ℕ)) id id
        (fun q _ => q) (none : Option (Frame → Except Unit (ℕ → ℕ → ℚ)))
        (fun _ _ => (0 : ℚ)) (fun _ _ => (0 : ℚ)) 2 2 1 1 (7 / 5) (9 / 5)
        (-25) (Frame.mk 1 1 (fun _ _ => (0, 0, 0))) := by
  intro h
  have h00 := congrArg (fun fr => (fr.px 0 0).1) h
  have hc : centerOff 2 1 = 0 := by decide
  have hs : scaleDim 2 = 1 := by
    norm_num [scaleDim, round_eq]
  simp only [applyWarp, specProcess, enhanceSaturationContrast, specEnhance,
    remapFrame, scaledComposite, pasteAt, cvResize, liveSegStep,
    brightnessAdjust, brightnessChannel, bilinearConstZero, satCastU8,
    satChannel, specGradeChannel, scaleAbsChannel, npClip, pyTrunc, hs, hc,
    id_eq] at h00
  norm_num at h00

/-- C4 (amended): LiveView._apply_warp equals the strict composition, in
the specified order, of subject compositing, the channel-wise brightness
pre-adjustment (at the pipeline's identity parameters `alpha = 1`,
`power = 1`), the geometric remap with bilinear interpolation and constant
black border fill, and saturation scaling followed by the grading transform
`saturate(|contrastAlpha * pixel + brightnessBeta|)` — cv2.convertScaleAbs's
absolute value, not the claimed `clamp(contrastAlpha * pixel +
brightnessBeta, 0, 255)` — at the script's constants, for any byte-valued
resampling collaborator and any power collaborator satisfying `x ^ 1 = x`. -/
theorem pipeline_strict_composition {ε : Type}
    (content : Frame → ℕ → ℕ → ℕ → ℕ → ℕ × ℕ × ℕ)
    (toHSV fromHSV : Frame → Frame) (fpow : ℚ → ℚ → ℚ)
    (segmentor : Option (Frame → Except ε (ℕ → ℕ → ℚ)))
    (mapX mapY : ℕ → ℕ → ℚ) (frameSize canvasSize : ℕ) (frame : Frame)
    (hpow : ∀ q, fpow q 1 = q)
    (hcontent : ∀ f oh ow y x, pixelU8 (content f oh ow y x)) :
    applyWarp content toHSV fromHSV segmentor mapX mapY frameSize canvasSize
        frame =
      amendedProcess content toHSV fromHSV fpow segmentor mapX mapY frameSize
        canvasSize 1 1 (7 / 5) (9 / 5) (-25) frame := by
  have hpadded : ∀ y x, pixelU8 ((scaledComposite content frameSize
      (liveSegStep segmentor (cvResize content frame frameSize frameSize))).px
        y x) := by
    intro y x
    unfold scaledComposite pasteAt cvResize
    dsimp only
    split
    · exact hcontent _ _ _ _ _
    · exact ⟨Nat.zero_le 255, Nat.zero_le 255, Nat.zero_le 255⟩
  have key := brightnessAdjust_one_one fpow hpow _ hpadded
  show enhanceSaturationContrast toHSV fromHSV (7 / 5) (9 / 5) (-25)
      (remapFrame mapX mapY canvasSize canvasSize
        (scaledComposite content frameSize
          (liveSegStep segmentor (cvResize content frame frameSize frameSize)))) =
    enhanceSaturationContrast toHSV fromHSV (7 / 5) (9 / 5) (-25)
      (remapFrame mapX mapY canvasSize canvasSize
        (brightnessAdjust fpow 1 1 (scaledComposite content frameSize
          (liveSegStep segmentor (cvResize content frame frameSize frameSize)))))
  rw [key]

/-- C4 witness with concrete collaborators: black resampling content,
identity color conversions, the power function `fun q _ => q`, no
segmentor, zero maps, a 2-pixel working square and a 1 x 1 input frame. -/
theorem pipeline_strict_composition_witness :
    applyWarp (fun _ _ _ _ _ => ((0, 0, 0) : ℕ × ℕ × ℕ)) id id
        (none : Option (Frame → Except Unit (ℕ → ℕ → ℚ)))
        (fun _ _ => (0 : ℚ)) (fun _ _ => (0 : ℚ)) 2 2
        (Frame.mk 1 1 (fun _ _ => (0, 0, 0))) =
      amendedProcess (fun _ _ _ _ _ => ((0, 0, 0) : ℕ × ℕ × ℕ)) id id
        (fun q _ => q) (none : Option (Frame → Except Unit (ℕ → ℕ → ℚ)))
        (fun _ _ => (0 : ℚ)) (fun _ _ => (0 : ℚ)) 2 2 1 1 (7 / 5) (9 / 5)
        (-25) (Frame.mk 1 1 (fun _ _ => (0, 0, 0))) :=
  pipeline_strict_composition (fun _ _ _ _ _ => ((0, 0, 0) : ℕ × ℕ × ℕ)) id id
    (fun q _ => q) (none : Option (Frame → Except Unit (ℕ → ℕ → ℚ)))
    (fun _ _ => (0 : ℚ)) (fun _ _ => (0 : ℚ)) 2 2
    (Frame.mk 1 1 (fun _ _ => (0, 0, 0)))
    (fun _ => rfl)
    (fun _ _ _ _ _ => ⟨Nat.zero_le 255, Nat.zero_le 255, Nat.zero_le 255⟩)

/-- C8 counterexample: in UploadView._segment_person an erroring
segmentation call is not caught: with a segmentor present whose call
fails, the error propagates to the caller instead of degrading to the
unsegmented frame, contradicting the claim that the pipeline raises no
exception when the segmentation call errors. -/
theorem segmentPerson_error_propagates :
    segmentPerson (fun r => r) (fun m => m)
      (some (fun _ => (Except.error () : Except Unit (ℕ → ℕ → ℚ))))
      (Frame.mk 1 1 (fun _ _ => (0, 0, 0))) = Except.error () := rfl

/-- C8 (amended): LiveView's pipeline degrades gracefully for both a
missing segmentor and an erroring segmentation call — the frame is produced
from the unsegmented composite and no error escapes — while
UploadView._segment_person degrades gracefully only for a missing
segmentor: an erroring segmentation call propagates its error to the
caller. -/
theorem segmentation_degrades_gracefully {ε : Type}
    (content : Frame → ℕ → ℕ → ℕ → ℕ → ℕ × ℕ × ℕ)
    (toHSV fromHSV : Frame → Frame) (mapX mapY : ℕ → ℕ → ℚ)
    (frameSize canvasSize : ℕ) (blur : (ℕ → ℕ → ℚ) → ℕ → ℕ → ℚ)
    (close : (ℕ → ℕ → ℕ) → ℕ → ℕ → ℕ)
    (s : Frame → Except ε (ℕ → ℕ → ℚ)) (e : ε) (sq frame : Frame)
    (hs : ∀ f, s f = Except.error e) :
    liveSegStep (none : Option (Frame → Except ε (ℕ → ℕ → ℚ))) sq = sq ∧
    liveSegStep (some s) sq = sq ∧
    applyWarp content toHSV fromHSV (some s) mapX mapY frameSize canvasSize
        frame =
      applyWarp content toHSV fromHSV
        (none : Option (Frame → Except ε (ℕ → ℕ → ℚ))) mapX mapY frameSize
        canvasSize frame ∧
    segmentPerson blur close (none : Option (Frame → Except ε (ℕ → ℕ → ℚ)))
        sq = Except.ok sq ∧
    segmentPerson blur close (some s) sq = Except.error e := by
  have hl : ∀ t : Frame, liveSegStep (some s) t = t := by
    intro t
    simp only [liveSegStep]
    rw [hs t]
  refine ⟨rfl, hl sq, ?_, rfl, ?_⟩
  · show enhanceSaturationContrast toHSV fromHSV (7 / 5) (9 / 5) (-25)
        (remapFrame mapX mapY canvasSize canvasSize
          (scaledComposite content frameSize
            (liveSegStep (some s) (cvResize content frame frameSize frameSize)))) =
      enhanceSaturationContrast toHSV fromHSV (7 / 5) (9 / 5) (-25)
        (remapFrame mapX mapY canvasSize canvasSize
          (scaledComposite content frameSize
            (liveSegStep (none : Option (Frame → Except ε (ℕ → ℕ → ℚ)))
              (cvResize content frame frameSize frameSize))))
    rw [hl _]
    rfl
  · simp only [segmentPerson]
    rw [hs sq]
    rfl

/-- C8 witness with a concrete always-erroring segmentor. -/
theorem segmentation_degrades_gracefully_witness :
    liveSegStep (none : Option (Frame → Except Unit (ℕ → ℕ → ℚ)))
        (Frame.mk 1 1 (fun _ _ => (0, 0, 0))) =
      Frame.mk 1 1 (fun _ _ => (0, 0, 0)) ∧
    liveSegStep (some (fun _ => (Except.error () : Except Unit (ℕ → ℕ → ℚ))))
        (Frame.mk 1 1 (fun _ _ => (0, 0, 0))) =
      Frame.mk 1 1 (fun _ _ => (0, 0, 0)) ∧
    applyWarp (fun _ _ _ _ _ => ((0, 0, 0) : ℕ × ℕ × ℕ)) id id
        (some (fun _ => (Except.error () : Except Unit (ℕ → ℕ → ℚ))))
        (fun _ _ => (0 : ℚ)) (fun _ _ => (0 : ℚ)) 2 2
        (Frame.mk 1 1 (fun _ _ => (0, 0, 0))) =
      applyWarp (fun _ _ _ _ _ => ((0, 0, 0) : ℕ × ℕ × ℕ)) id id
        (none : Option (Frame → Except Unit (ℕ → ℕ → ℚ)))
        (fun _ _ => (0 : ℚ)) (fun _ _ => (0 : ℚ)) 2 2
        (Frame.mk 1 1 (fun _ _ => (0, 0, 0))) ∧
    segmentPerson (fun r => r) (fun m => m)
        (none : Option (Frame → Except Unit (ℕ → ℕ → ℚ)))
        (Frame.mk 1 1 (fun _ _ => (0, 0, 0))) =
      Except.ok (Frame.mk 1 1 (fun _ _ => (0, 0, 0))) ∧
    segmentPerson (fun r => r) (fun m => m)
        (some (fun _ => (Except.error () : Except Unit (ℕ → ℕ → ℚ))))
        (Frame.mk 1 1 (fun _ _ => (0, 0, 0))) = Except.error () :=
  segmentation_degrades_gracefully (fun _ _ _ _ _ => ((0, 0, 0) : ℕ × ℕ × ℕ))
    id id (fun _ _ => (0 : ℚ)) (fun _ _ => (0 : ℚ)) 2 2 (fun r => r)
    (fun m => m) (fun _ => (Except.error () : Except Unit (ℕ → ℕ → ℚ))) ()
    (Frame.mk 1 1 (fun _ _ => (0, 0, 0)))
    (Frame.mk 1 1 (fun _ _ => (0, 0, 0))) (fun _ => rfl)

end PeppersCone
